import Mathlib

/-!
Verification development for the `jobmonitor` job-execution service
(`jobs-executor/jobmonitor.py`).

Modelling conventions:
* Text (paths, file contents, command output) is `List Char`, written `Str`.
* The file system is an explicit state (`FS`): the template directory, the
  instance directory and the transcript directory, each as an association
  of file names (resp. paths) to contents, instance files carrying an
  mtime.  Handlers take the state and return the new state together with
  the structured HTTP response and the list of supervisor commands issued.
* The remote command capability (fabric `run` against zdaemon) is the
  external collaborator `execute(host, command) -> (succeeded, exit_code,
  output)`; it is modelled as a function `SupExec : Str → CmdResult` with the
  three fields independent, and every invocation is logged.
* Uncaught Python exceptions are modelled by `Except PyExn`.
* Random id generation (`create_job_id`, 6 random bytes hex-encoded) is
  modelled by quantifying over ids satisfying `isHexId`, and the fresh id
  is a parameter of `start_job_instance`.
* JSON response bodies are kept structured (a `Response` record with the
  fields the handlers put into the JSON payload) instead of serialised.
-/

abbrev Str := List Char

def str (s : String) : Str := s.data

/-- Python `needle in hay` on strings: contiguous-substring containment. -/
def strContains (needle : Str) : Str → Bool
  | [] => needle.isEmpty
  | c :: cs => needle.isPrefixOf (c :: cs) || strContains needle cs

/-- Index of the last occurrence of `c`, if any. -/
def lastIdxOf (c : Char) : Str → Option Nat
  | [] => none
  | x :: xs =>
    match lastIdxOf c xs with
    | some i => some (i + 1)
    | none => if x = c then some 0 else none

/-- Largest `q` with `lo ≤ q < fuel` such that `needle` occurs in `s` at
position `q`; scans downward from `fuel`. -/
def lastOccFrom (s needle : Str) (lo : Nat) : Nat → Option Nat
  | 0 => none
  | q + 1 =>
    if lo ≤ q ∧ needle.isPrefixOf (s.drop q) then some q
    else lastOccFrom s needle lo q

/-- Fuel-indexed engine of `pyReplace`; the fuel bounds the number of
consumed characters, so `s.length` units always suffice. -/
def pyReplaceF (p : Char) (ps rep : Str) : Nat → Str → Str
  | 0, s => s
  | _ + 1, [] => []
  | f + 1, c :: cs =>
    if (p :: ps).isPrefixOf (c :: cs) then
      rep ++ pyReplaceF p ps rep f (cs.drop ps.length)
    else
      c :: pyReplaceF p ps rep f cs

/-- Python `s.replace(p :: ps, rep)`: left-to-right, non-overlapping
replacement of every occurrence.  The pattern is structurally non-empty
(the source only ever replaces a dollar sign followed by the key). -/
def pyReplace (p : Char) (ps rep : Str) (s : Str) : Str :=
  pyReplaceF p ps rep s.length s

/-- Python `str.splitlines()` restricted to LF terminators: splits into
lines with the terminators stripped; a trailing terminator yields no extra
empty line. -/
def pySplitlines : Str → List Str
  | [] => []
  | c :: cs =>
    if c = '\n' then [] :: pySplitlines cs
    else
      match pySplitlines cs with
      | [] => [[c]]
      | l :: ls => (c :: l) :: ls

/-- Python `l[-n:]`: the last `n` elements for `n > 0`; for `n = 0` the
slice `l[0:]` is the whole list. -/
def takeLastPy (n : Nat) (l : List Str) : List Str :=
  if n = 0 then l else l.drop (l.length - n)

/-- Python text-file iteration (`for line in open(...)`) restricted to
LF: the lines of `s` with their terminators kept; a final segment
without terminator is kept, an empty file yields no lines. -/
def pyLinesKeepEnds : Str → List Str
  | [] => []
  | c :: cs =>
    if c = '\n' then [c] :: pyLinesKeepEnds cs
    else
      match pyLinesKeepEnds cs with
      | [] => [[c]]
      | l :: ls => (c :: l) :: ls

/-- Association-list lookup (Python `d[k]` when present). -/
def lookupKV {α : Type} (k : Str) : List (Str × α) → Option α
  | [] => none
  | (k', v) :: rest => if k = k' then some v else lookupKV k rest

/-- Python `d[k] = v` on a dict modelled as an association list: update in
place when the key exists, append otherwise. -/
def pySetItem {α : Type} (k : Str) (v : α) : List (Str × α) → List (Str × α)
  | [] => [(k, v)]
  | (k', v') :: rest =>
    if k = k' then (k, v) :: rest else (k', v') :: pySetItem k v rest

/-- Longest run of decimal digits at the front of `s`. -/
def digitsRun : Str → Str
  | [] => []
  | c :: cs => if c.isDigit then c :: digitsRun cs else []

def parseNatDigits (s : Str) : Nat :=
  s.foldl (fun acc c => acc * 10 + (c.toNat - '0'.toNat)) 0

/-- Model of `extract_process_id`: the search for the pattern `pid=(\d+)`, leftmost
occurrence of `pid=` followed by at least one digit, greedy digit run,
`-1` when absent. -/
def extract_process_id : Str → Int
  | [] => -1
  | c :: cs =>
    if (str "pid=").isPrefixOf (c :: cs) &&
        (match (c :: cs).drop 4 with
         | [] => false
         | d :: _ => d.isDigit) then
      Int.ofNat (parseNatDigits (digitsRun ((c :: cs).drop 4)))
    else
      extract_process_id cs

/-- Model of `os.path.splitext` on a bare file name: split before the last dot,
unless everything before that dot is itself dots (hidden-file rule). -/
def pySplitext (s : Str) : Str × Str :=
  match lastIdxOf '.' s with
  | none => (s, [])
  | some p =>
    if (s.take p).all (fun c => c = '.') then (s, [])
    else (s.take p, s.drop p)

/-- Hand-compilation of group 1 of the search for pattern `.+_(.+).conf`
for inputs that contain no newline (the only inputs the program feeds it:
instance-file paths).  Greedy `.+` runs to the last underscore, which must
have at least one character before it; greedy `(.+)` then extends so that
the match ends at the last position where one arbitrary character followed
by the literal `conf` fits, i.e. at the last occurrence of `conf` at
position `≥ p + 3`.  `none` models a failed match (an `AttributeError` in
the source). -/
def extract_job_id (s : Str) : Option Str :=
  match lastIdxOf '_' s with
  | none => none
  | some p =>
    if p = 0 then none
    else
      match lastOccFrom s (str "conf") (p + 3) s.length with
      | none => none
      | some q => some ((s.drop (p + 1)).take (q - p - 2))

/-- Character set of `binascii.b2a_hex` output. -/
def isLowerHexChar (c : Char) : Bool :=
  c.isDigit || (c = 'a' || c = 'b' || c = 'c' || c = 'd' || c = 'e' || c = 'f')

/-- Characterises the outputs of `create_job_id` (= `b2a_hex(urandom(6))`):
12 lower-case hexadecimal characters. -/
def isHexId (s : Str) : Bool :=
  s.length = 12 && s.all isLowerHexChar

/-! ## Configuration, external collaborators and file-system state -/

/-- The configuration surface (module constants, overridable via
`JOBMONITOR_SETTINGS`), fixed at process start. -/
structure Config where
  templatesDir : Str
  instancesDir : Str
  transcriptDir : Str
  hostname : Str

/-- Default configuration of the module, with `JOB_INSTANCES_DIR` already
absolutised (the source applies `os.path.abspath`). -/
def defaultConfig : Config :=
  { templatesDir := str "templates"
  , instancesDir := str "/srv/instances"
  , transcriptDir := str "/tmp"
  , hostname := str "localhost" }

/-- Result of the remote command capability (fabric `run` with
`warn_only`): `succeeded` flag, exit code and textual output, per the
external-interface contract `execute(host, command) -> (succeeded,
exit_code, output)`.  The string operators of the source (`"..." in
cmd_result`, formatting it into a message, `re.search(..., cmd_string)`) act on the
output text. -/
structure CmdResult where
  succeeded : Bool
  return_code : Int
  output : Str

/-- The external supervisor/transport, as a deterministic map from command
strings to results. -/
abbrev SupExec := Str → CmdResult

/-- A file in a flat directory: bare name, content, modification time. -/
structure FileEntry where
  name : Str
  content : Str
  mtime : Nat
deriving DecidableEq

/-- File-system state: the template directory and instance directory as
flat file listings (listing order models `os.listdir` order), the
transcript directory as full-path-keyed contents, and a clock supplying
the mtime of newly created files. -/
structure FS where
  templates : List FileEntry
  instances : List FileEntry
  transcripts : List (Str × Str)
  clock : Nat
deriving DecidableEq

/-! ## Path helpers (pure derivations from the source) -/

def get_job_template_filename (job_name : Str) : Str :=
  job_name ++ str ".conf"

def get_job_template_filepath (cfg : Config) (job_name : Str) : Str :=
  cfg.templatesDir ++ '/' :: get_job_template_filename job_name

def get_job_instance (job_name job_id : Str) : Str :=
  job_name ++ '_' :: job_id

def get_job_instance_filename (job_name job_id : Str) : Str :=
  get_job_instance job_name job_id ++ str ".conf"

def get_job_instance_logname (job_name job_id : Str) : Str :=
  get_job_instance job_name job_id ++ str ".log"

def get_job_instance_logpath (cfg : Config) (job_name job_id : Str) : Str :=
  cfg.transcriptDir ++ '/' :: get_job_instance_logname job_name job_id

def get_job_instance_filepath (cfg : Config) (job_name job_id : Str) : Str :=
  cfg.instancesDir ++ '/' :: get_job_instance_filename job_name job_id

/-! ## Template store and instance registry -/

def findFile (nm : Str) : List FileEntry → Option FileEntry
  | [] => none
  | f :: fs => if f.name = nm then some f else findFile nm fs

def exists_job_template (_cfg : Config) (job_name : Str) (fs : FS) : Bool :=
  (findFile (get_job_template_filename job_name) fs.templates).isSome

def exists_job_instance (_cfg : Config) (job_name job_id : Str) (fs : FS) : Bool :=
  (findFile (get_job_instance_filename job_name job_id) fs.instances).isSome

/-- The filter of `get_latest_job_instance`: a directory entry counts when
the job name occurs in the basename (`job_name in basename`, substring)
and the extension is `.conf`. -/
def instanceMatches (job_name : Str) (f : FileEntry) : Bool :=
  strContains job_name (pySplitext f.name).1 && (pySplitext f.name).2 = str ".conf"

/-- Model of `sorted(..., key=getmtime, reverse=True)[0]`: the entry with the
greatest mtime; the stable sort of Python keeps the earliest-listed entry among
ties. -/
def latestOf (l : List FileEntry) : Option FileEntry :=
  l.foldl (fun acc f =>
    match acc with
    | none => some f
    | some g => if f.mtime > g.mtime then some f else some g) none

/-- Model of `get_latest_job_instance`: full path of the matching instance file
with the greatest mtime, `none` when no file matches. -/
def get_latest_job_instance (cfg : Config) (job_name : Str) (fs : FS) : Option Str :=
  match latestOf (fs.instances.filter (instanceMatches job_name)) with
  | none => none
  | some f => some (cfg.instancesDir ++ '/' :: f.name)

/-- Store `content` under bare name `nm` in a flat directory listing,
overwriting in place or appending (file creation), stamping `clk`. -/
def putFile (nm content : Str) (clk : Nat) : List FileEntry → List FileEntry
  | [] => [⟨nm, content, clk⟩]
  | f :: fs => if f.name = nm then ⟨nm, content, clk⟩ :: fs else f :: putFile nm content clk fs

/-! ## Log tailer -/

/-- Model of `get_last_lines(filepath, nr_lines)`, translated faithfully from the
source: `fh.tell()` immediately after opening the file for reading yields `0`
(not the file size), so the seek target is `max(0 - 4096, 0) = 0` and the
whole file is read.  `files` is the directory content keyed by full
path. -/
def get_last_lines (files : List (Str × Str)) (filepath : Str) (nr_lines : Nat) : List Str :=
  match lookupKV filepath files with
  | some content =>
    let file_size : Int := 0
    let seekTo : Int := max (file_size - 4 * 1024) 0
    takeLastPy nr_lines (pySplitlines (content.drop seekTo.toNat))
  | none => []

/-! ## Instance rendering -/

inductive PyExn where
  | keyError (k : Str)
  | fileNotFound (path : Str)
  | attrError
deriving DecidableEq

/-- One pass of the inner substitution loop of `create_jobconf`:
for each key-value pair of `params.items()`, in order, replace every
occurrence of the dollar-prefixed key in the line by the value. -/
def renderLine (params : List (Str × Str)) (line : Str) : Str :=
  params.foldl (fun l kv => pyReplace '$' kv.1 kv.2 l) line

/-- Model of `create_jobconf(job_id, job_name, params)`: creates (truncates) the
instance file, injects `transcript_file` into `params` (overwriting any
caller-supplied binding in place), renders each template line by the
substitution loop, writes the result, and returns the instance path.
Opening a missing template file for reading raises `IOError` (ENOENT),
modelled as `PyExn.fileNotFound`; the truncated instance file persists in
that case, as in the source. -/
def create_jobconf (cfg : Config) (job_id job_name : Str) (params : List (Str × Str))
    (fs : FS) : Except PyExn Str × FS :=
  let file_path := get_job_instance_filepath cfg job_name job_id
  let instName := get_job_instance_filename job_name job_id
  let fs1 : FS := { fs with instances := putFile instName [] fs.clock fs.instances }
  let params' := pySetItem (str "transcript_file") (get_job_instance_logpath cfg job_name job_id) params
  match findFile (get_job_template_filename job_name) fs.templates with
  | none => (Except.error (PyExn.fileNotFound (get_job_template_filepath cfg job_name)), fs1)
  | some tpl =>
    let rendered := ((pyLinesKeepEnds tpl.content).map (renderLine params')).flatten
    (Except.ok file_path,
     { fs with instances := putFile instName rendered fs.clock fs.instances })

/-! ## Process controller -/

def statusCmd (path : Str) : Str := str "zdaemon -C" ++ path ++ str " status"

def startCmd (path : Str) : Str := str "zdaemon -C" ++ path ++ str " start"

def stopCmd (path : Str) : Str := str "zdaemon -C" ++ path ++ str " stop"

structure JobStatus where
  active : Bool
  pid : Int
  warned : Bool

/-- Model of `get_job_status(job_name, job_filepath)`: runs the supervisor status
command; warns when the exit code is positive; active iff the command
succeeded and the output carries the `program running` marker; pid parsed
from the output only when active, `-1` otherwise. -/
def get_job_status (sup : SupExec) (job_filepath : Str) : JobStatus :=
  let r := sup (statusCmd job_filepath)
  let warned := r.return_code > 0
  let active := r.succeeded && strContains (str "program running") r.output
  let pid : Int := if active then extract_process_id r.output else -1
  ⟨active, pid, warned⟩

/-! ## HTTP layer: requests, responses, handlers -/

/-- The JSON body fields a handler serialises, kept structured. -/
structure Response where
  status : Nat
  jstatus : Option Str := none
  message : Option Str := none
  link : Option Str := none
  job_id : Option Str := none
  result_ok : Option Bool := none
  result_message : Option Str := none
  res_exit_code : Option Int := none
  log_lines : Option (List Str) := none
deriving DecidableEq

def urlJobById (job_name job_id : Str) : Str :=
  str "/jobs/" ++ job_name ++ '/' :: job_id

def urlCurrentJob (job_name : Str) : Str :=
  str "/jobs/" ++ job_name

/-- The request body shapes the start handler reads: a JSON object whose
`parameters` entry, when present, is either `null` (`none`) or an object
of string-valued parameters. -/
structure Request where
  contentType : Str
  json : List (Str × Option (List (Str × Str)))

/-- Model of the parameter extraction of line 148: look up the
`parameters` entry of the request JSON, raising `KeyError` when the key is
absent, and replacing a falsy value (`null` or an empty object) by the
empty map. -/
def extract_params (json : List (Str × Option (List (Str × Str)))) :
    Except PyExn (List (Str × Str)) :=
  match lookupKV (str "parameters") json with
  | none => Except.error (PyExn.keyError (str "parameters"))
  | some none => Except.ok []
  | some (some []) => Except.ok []
  | some (some (kv :: kvs)) => Except.ok (kv :: kvs)

/-- Outcome of a handler: the response (or an uncaught exception), the
file system after the request, and the supervisor commands issued. -/
structure HandlerOut where
  result : Except PyExn Response
  fs : FS
  cmds : List Str

/-- Lines 132-138 of `start_job_instance`: look up the latest instance and
ask the supervisor whether it is still running.  Returns the `job_active`
flag, the process id, and the status commands issued. -/
def check_running (cfg : Config) (sup : SupExec) (job_name : Str) (fs : FS) :
    Bool × Int × List Str :=
  match get_latest_job_instance cfg job_name fs with
  | none => (false, -1, [])
  | some p =>
    let st := get_job_status sup p
    (st.active, st.pid, [statusCmd p])

/-- Handler of POST `/jobs/(job_name)/start`.  `new_id` models the value returned by
`create_job_id()` for this request. -/
def start_job_instance (cfg : Config) (sup : SupExec) (req : Request) (new_id : Str)
    (job_name : Str) (fs : FS) : HandlerOut :=
  if req.contentType ≠ str "application/json" then
    ⟨Except.ok { status := 415 }, fs, []⟩
  else
    let latest := get_latest_job_instance cfg job_name fs
    let (job_active, _job_process_id, cmds0) := check_running cfg sup job_name fs
    if job_active then
      match latest with
      | none => ⟨Except.error PyExn.attrError, fs, cmds0⟩
      | some p =>
        match extract_job_id p with
        | none => ⟨Except.error PyExn.attrError, fs, cmds0⟩
        | some job_id =>
          ⟨Except.ok { status := 303, jstatus := some (str "RUNNING"),
                       link := some (urlJobById job_name job_id) }, fs, cmds0⟩
    else
      match extract_params req.json with
      | Except.error e => ⟨Except.error e, fs, cmds0⟩
      | Except.ok job_params =>
        match create_jobconf cfg new_id job_name job_params fs with
        | (Except.error e, fs1) => ⟨Except.error e, fs1, cmds0⟩
        | (Except.ok job_filepath, fs1) =>
          let r := sup (startCmd job_filepath)
          let cmds1 := cmds0 ++ [startCmd job_filepath]
          if r.succeeded && strContains (str "daemon process started") r.output then
            ⟨Except.ok { status := 201, jstatus := some (str "STARTED"),
                         link := some (urlJobById job_name new_id) }, fs1, cmds1⟩
          else
            ⟨Except.ok { status := 500, jstatus := some (str "FINISHED"),
                         result_ok := some false, result_message := some r.output,
                         res_exit_code := some r.return_code }, fs1, cmds1⟩

/-- Handler of POST `/jobs/(job_name)/(job_id)/stop`. -/
def stop_job_instance (cfg : Config) (sup : SupExec) (job_name job_id : Str)
    (fs : FS) : HandlerOut :=
  if ¬ exists_job_instance cfg job_name job_id fs then
    ⟨Except.ok { status := 404 }, fs, []⟩
  else
    let job_fullpath := get_job_instance_filepath cfg job_name job_id
    let st := get_job_status sup job_fullpath
    if ¬ st.active then
      ⟨Except.ok { status := 403, jstatus := some (str "FINISHED"),
                   message := some (str "job has already finished") },
       fs, [statusCmd job_fullpath]⟩
    else
      let r := sup (stopCmd job_fullpath)
      let cmds := [statusCmd job_fullpath, stopCmd job_fullpath]
      if r.succeeded && strContains (str "daemon process stopped") r.output then
        ⟨Except.ok { status := 200, jstatus := some (str "FINISHED"),
                     result_ok := some true }, fs, cmds⟩
      else
        ⟨Except.ok { status := 500, jstatus := some (str "ERROR"),
                     result_ok := some false, result_message := some r.output },
         fs, cmds⟩

/-- Model of `response_job_status`: the 200 status record with the transcript tail
(100 lines). -/
def response_job_status (cfg : Config) (job_name : Str) (job_active : Bool)
    (job_id : Str) (fs : FS) : Response :=
  let log_lines := get_last_lines fs.transcripts (get_job_instance_logpath cfg job_name job_id) 100
  if job_active then
    { status := 200, jstatus := some (str "RUNNING"), job_id := some job_id,
      log_lines := some log_lines }
  else
    { status := 200, jstatus := some (str "FINISHED"), log_lines := some log_lines,
      result_ok := some true }

/-- Handler of GET `/jobs/(job_name)`. -/
def get_current_job (cfg : Config) (sup : SupExec) (job_name : Str) (fs : FS) :
    HandlerOut :=
  match get_latest_job_instance cfg job_name fs with
  | some p =>
    let st := get_job_status sup p
    (match extract_job_id p with
     | none => ⟨Except.error PyExn.attrError, fs, [statusCmd p]⟩
     | some jid =>
       ⟨Except.ok (response_job_status cfg job_name st.active jid fs), fs, [statusCmd p]⟩)
  | none =>
    if exists_job_template cfg job_name fs then
      ⟨Except.ok { status := 200, message := some (str "no job instance found") }, fs, []⟩
    else
      ⟨Except.ok { status := 404, message := some (str "no job template exists") }, fs, []⟩

/-! ## Shared lemmas -/

theorem pySplitlines_cons (c : Char) (cs : Str) :
    pySplitlines (c :: cs) =
      if c = '\n' then [] :: pySplitlines cs
      else
        match pySplitlines cs with
        | [] => [[c]]
        | l :: ls => (c :: l) :: ls := rfl

theorem takeLastPy_of_lt {l : List Str} {n : Nat} (h : l.length < n) :
    takeLastPy n l = l := by
  unfold takeLastPy
  have hn : n ≠ 0 := by omega
  simp [hn, Nat.sub_eq_zero_of_le (Nat.le_of_lt h)]

theorem pySplitlines_no_nl (s : Str) (h : '\n' ∉ s) (hne : s ≠ []) :
    pySplitlines s = [s] := by
  induction s with
  | nil => exact absurd rfl hne
  | cons c cs ih =>
    have hc : c ≠ '\n' := fun hcc => h (hcc ▸ List.mem_cons_self c cs)
    have hcs : '\n' ∉ cs := fun hm => h (List.mem_cons_of_mem c hm)
    rw [pySplitlines_cons, if_neg hc]
    cases hcse : cs with
    | nil => rfl
    | cons d ds =>
      rw [hcse] at ih hcs
      rw [ih hcs (by simp)]

theorem pySplitlines_append_nl (a b : Str) (ha : '\n' ∉ a) :
    pySplitlines (a ++ '\n' :: b) = a :: pySplitlines b := by
  induction a with
  | nil => rw [List.nil_append, pySplitlines_cons, if_pos rfl]
  | cons c cs ih =>
    have hc : c ≠ '\n' := fun hcc => ha (hcc ▸ List.mem_cons_self c cs)
    have hcs : '\n' ∉ cs := fun hm => ha (List.mem_cons_of_mem c hm)
    rw [List.cons_append, pySplitlines_cons, if_neg hc, ih hcs]

theorem findFile_putFile (nm c : Str) (clk : Nat) (l : List FileEntry) :
    findFile nm (putFile nm c clk l) = some ⟨nm, c, clk⟩ := by
  induction l with
  | nil => simp [putFile, findFile]
  | cons f fs ih =>
    unfold putFile
    by_cases h : f.name = nm
    · simp [h, findFile]
    · simp [h, findFile, ih]

theorem lookupKV_pySetItem {α : Type} (k : Str) (v : α) (l : List (Str × α)) :
    lookupKV k (pySetItem k v l) = some v := by
  induction l with
  | nil => simp [pySetItem, lookupKV]
  | cons kv rest ih =>
    unfold pySetItem
    by_cases h : k = kv.1
    · simp [h, lookupKV]
    · simp [h, lookupKV, ih]

theorem get_last_lines_found (files : List (Str × Str)) (path content : Str) (n : Nat)
    (h : lookupKV path files = some content) :
    get_last_lines files path n = takeLastPy n (pySplitlines content) := by
  unfold get_last_lines
  rw [h]
  have hseek : (max ((0 : Int) - 4 * 1024) 0).toNat = 0 := by decide
  simp only [hseek, List.drop_zero]

/-! ## C3: the bounded tail window is never applied (code bug) -/

def c3line : Str := List.replicate 2500 'a'

def c3content : Str := c3line ++ '\n' :: c3line

def c3path : Str := str "/tmp/job_x.log"

/-- C3.  The claim says `get_last_lines` reads at most a 4 KiB window from
the end of the file, so that here, where the 2 requested lines span 5001
bytes, fewer than 2 lines would come back.  The code computes `file_size`
with `fh.tell()` immediately after `open`, which is `0`, so it seeks to
`max(0 - 4096, 0) = 0` and reads the whole file: on this failing input
both full lines come back. -/
theorem C3_tail_window_never_applied :
    4 * 1024 < c3content.length ∧
    get_last_lines [(c3path, c3content)] c3path 2 = [c3line, c3line] := by
  constructor
  · have h1 : c3content.length = 5001 := by
      simp only [c3content, c3line, List.length_append, List.length_cons,
        List.length_replicate]
    omega
  · have hnl : '\n' ∉ c3line := by
      intro hm
      rw [c3line, List.mem_replicate] at hm
      exact absurd hm.2 (by decide)
    have hne : c3line ≠ [] := by
      intro h
      have hlen : c3line.length = 0 := by rw [h]; rfl
      rw [c3line, List.length_replicate] at hlen
      omega
    have hsplit : pySplitlines c3content = [c3line, c3line] := by
      rw [c3content, pySplitlines_append_nl _ _ hnl, pySplitlines_no_nl _ hnl hne]
    have hlk : lookupKV c3path [(c3path, c3content)] = some c3content := by
      unfold lookupKV
      rw [if_pos rfl]
    rw [get_last_lines_found _ _ _ _ hlk, hsplit]
    rfl

/-! ## C9: tail on a missing file and on a short file -/

/-- C9.  `get_last_lines` on a path that does not exist returns the empty
sequence (not an error); on an existing file with fewer than `n` lines it
returns exactly the lines of the file, in original order, with trailing line
terminators stripped (`pySplitlines`). -/
theorem C9_tail_missing_and_short (files : List (Str × Str)) (path : Str) (n : Nat) :
    (lookupKV path files = none → get_last_lines files path n = []) ∧
    (∀ content, lookupKV path files = some content →
      (pySplitlines content).length < n →
      get_last_lines files path n = pySplitlines content) := by
  constructor
  · intro h
    simp [get_last_lines, h]
  · intro content hc hlt
    rw [get_last_lines_found _ _ _ _ hc]
    exact takeLastPy_of_lt hlt

/-- C9 witness: a missing transcript yields `[]`; a two-line file with
`n = 7` yields exactly its two lines in order. -/
theorem C9_witness :
    get_last_lines [] (str "/tmp/nope.log") 7 = [] ∧
    get_last_lines [(str "/tmp/a.log", str "l1\nl2\n")] (str "/tmp/a.log") 7
      = [str "l1", str "l2"] := by
  constructor
  · exact (C9_tail_missing_and_short [] (str "/tmp/nope.log") 7).1 rfl
  · have h := (C9_tail_missing_and_short [(str "/tmp/a.log", str "l1\nl2\n")]
      (str "/tmp/a.log") 7).2 (str "l1\nl2\n") rfl (by decide)
    rw [h]
    decide

/-! ## C5: running marker beats a non-zero exit code -/

def c5res : CmdResult := ⟨true, 3, str "program running, pid=4321"⟩

def supC5 : SupExec := fun _ => c5res

/-- C5.  A supervisor status result whose output carries the
`program running` marker but whose exit code is non-zero is still reported
active by `get_job_status` (with its pid parsed from the output), and the
non-zero exit code is logged as a warning. -/
theorem C5_marker_beats_exit_code :
    c5res.return_code ≠ 0 ∧
    strContains (str "program running") c5res.output = true ∧
    (get_job_status supC5 (str "/srv/instances/job_x.conf")).active = true ∧
    (get_job_status supC5 (str "/srv/instances/job_x.conf")).pid = 4321 ∧
    (get_job_status supC5 (str "/srv/instances/job_x.conf")).warned = true := by
  refine ⟨by decide, by decide, by decide, by decide, by decide⟩

/-! ## C6: GET of a job with no template (corrected) -/

def resultStatus : Except PyExn Response → Option Nat
  | Except.ok r => some r.status
  | Except.error _ => none

def supIdle : SupExec := fun _ => ⟨true, 0, str "daemon manager not running"⟩

def fsC6 : FS := ⟨[], [⟨str "job_aaaaaaaaaaaa.conf", str "zz", 5⟩], [], 9⟩

/-- C6 counterexample.  The claim says every job name with no registered
template gets a 404 from GET `/jobs/(name)`; but when an instance file
matching the name exists, `get_current_job` returns the 200 status record
even though no template is registered. -/
theorem C6_counterexample :
    exists_job_template defaultConfig (str "job") fsC6 = false ∧
    resultStatus (get_current_job defaultConfig supIdle (str "job") fsC6).result
      = some 200 := by
  exact ⟨by decide, by decide⟩

/-- C6 amended.  For every job name with no registered template and no
matching instance file, GET `/jobs/(name)` returns HTTP 404. -/
theorem C6_amended_no_template_no_instance (cfg : Config) (sup : SupExec)
    (job_name : Str) (fs : FS)
    (htpl : exists_job_template cfg job_name fs = false)
    (hlat : get_latest_job_instance cfg job_name fs = none) :
    resultStatus (get_current_job cfg sup job_name fs).result = some 404 := by
  simp [get_current_job, hlat, htpl, resultStatus]

/-- C6 amended witness: on an empty store the handler answers 404. -/
theorem C6_amended_witness :
    resultStatus (get_current_job defaultConfig supIdle (str "job") ⟨[], [], [], 0⟩).result
      = some 404 :=
  C6_amended_no_template_no_instance defaultConfig supIdle (str "job") ⟨[], [], [], 0⟩
    (by decide) (by decide)

/-! ## C7: stopping a non-running instance -/

/-- C7.  Stopping an existing instance that the supervisor does not report
as active returns the 403 FINISHED "job has already finished" response;
the only supervisor command issued is the status query (no stop command),
and the file system is unchanged. -/
theorem C7_stop_already_finished (cfg : Config) (sup : SupExec)
    (job_name job_id : Str) (fs : FS)
    (hex : exists_job_instance cfg job_name job_id fs = true)
    (hna : (get_job_status sup (get_job_instance_filepath cfg job_name job_id)).active
      = false) :
    stop_job_instance cfg sup job_name job_id fs =
      ⟨Except.ok { status := 403, jstatus := some (str "FINISHED"),
                   message := some (str "job has already finished") },
       fs, [statusCmd (get_job_instance_filepath cfg job_name job_id)]⟩ := by
  unfold stop_job_instance
  rw [hex]
  simp only [Bool.not_true, Bool.false_eq_true, not_false_eq_true, not_true_eq_false,
    if_false, if_true, hna]

def fsC7 : FS := ⟨[], [⟨str "job_aaaaaaaaaaaa.conf", str "zz", 5⟩], [], 9⟩

/-- C7 witness: a stored instance whose status query reports no running
marker is rejected with the 403 response and no stop command. -/
theorem C7_witness :
    stop_job_instance defaultConfig supIdle (str "job") (str "aaaaaaaaaaaa") fsC7 =
      ⟨Except.ok { status := 403, jstatus := some (str "FINISHED"),
                   message := some (str "job has already finished") },
       fsC7,
       [statusCmd (get_job_instance_filepath defaultConfig (str "job")
         (str "aaaaaaaaaaaa"))]⟩ :=
  C7_stop_already_finished defaultConfig supIdle (str "job") (str "aaaaaaaaaaaa") fsC7
    (by decide) (by decide)

/-! ## C2: starting a job with no template -/

/-- C2.  A start request on a job whose template is not registered, when
no latest instance is reported active, fails in the instance-creation step
with the file-not-found error for the template path (the `IOError` raised
by opening the missing template), and with no other kind of failure. -/
theorem C2_start_no_template_not_found (cfg : Config) (sup : SupExec) (req : Request)
    (new_id job_name : Str) (fs : FS)
    (hct : req.contentType = str "application/json")
    (htpl : findFile (get_job_template_filename job_name) fs.templates = none)
    (hparams : lookupKV (str "parameters") req.json ≠ none)
    (hnr : (check_running cfg sup job_name fs).1 = false) :
    (start_job_instance cfg sup req new_id job_name fs).result =
      Except.error (PyExn.fileNotFound (get_job_template_filepath cfg job_name)) := by
  have hctn : ¬ (req.contentType ≠ str "application/json") := by
    rw [hct]
    exact fun h => h rfl
  rcases he : check_running cfg sup job_name fs with ⟨act, pid, cmds0⟩
  rw [he] at hnr
  simp only at hnr
  subst hnr
  unfold start_job_instance
  rw [if_neg hctn, he]
  simp only [Bool.false_eq_true, if_false]
  rcases hp : lookupKV (str "parameters") req.json with _ | w
  · exact absurd hp hparams
  · rcases w with _ | ⟨_ | ⟨kv, kvs⟩⟩ <;>
      simp only [extract_params, hp, create_jobconf, htpl]

/-- C2 witness: empty store, body `{"parameters": null}`. -/
theorem C2_witness :
    (start_job_instance defaultConfig supIdle
        ⟨str "application/json", [(str "parameters", none)]⟩
        (str "bbbbbbbbbbbb") (str "job") ⟨[], [], [], 0⟩).result =
      Except.error (PyExn.fileNotFound (get_job_template_filepath defaultConfig (str "job"))) :=
  C2_start_no_template_not_found defaultConfig supIdle
    ⟨str "application/json", [(str "parameters", none)]⟩
    (str "bbbbbbbbbbbb") (str "job") ⟨[], [], [], 0⟩
    rfl rfl (by decide) (by decide)

/-! ## C10: missing or falsy `parameters` in the start body -/

/-- C10.  In the not-currently-running branch of a JSON start request, a
body without a `parameters` key raises an uncaught `KeyError` (no
structured error response); a `parameters` value that is `null` or the
empty object is replaced by the empty parameter map. -/
theorem C10_parameters_key_handling (cfg : Config) (sup : SupExec) (req : Request)
    (new_id job_name : Str) (fs : FS)
    (hct : req.contentType = str "application/json")
    (hnr : (check_running cfg sup job_name fs).1 = false)
    (hkey : lookupKV (str "parameters") req.json = none) :
    (start_job_instance cfg sup req new_id job_name fs).result =
      Except.error (PyExn.keyError (str "parameters")) ∧
    (∀ json, lookupKV (str "parameters") json = some none →
      extract_params json = Except.ok []) ∧
    (∀ json, lookupKV (str "parameters") json = some (some []) →
      extract_params json = Except.ok []) := by
  refine ⟨?_, ?_, ?_⟩
  · have hctn : ¬ (req.contentType ≠ str "application/json") := by
      rw [hct]
      exact fun h => h rfl
    rcases he : check_running cfg sup job_name fs with ⟨act, pid, cmds0⟩
    rw [he] at hnr
    simp only at hnr
    subst hnr
    unfold start_job_instance
    rw [if_neg hctn, he]
    simp only [Bool.false_eq_true, if_false, extract_params, hkey]
  · intro json hj
    simp only [extract_params, hj]
  · intro json hj
    simp only [extract_params, hj]

/-- C10 witness: a JSON start request whose body has no `parameters` key,
against an empty store, ends in the `KeyError`; null and empty values give
the empty map. -/
theorem C10_witness :
    (start_job_instance defaultConfig supIdle ⟨str "application/json", []⟩
        (str "cccccccccccc") (str "job") ⟨[], [], [], 0⟩).result =
      Except.error (PyExn.keyError (str "parameters")) ∧
    extract_params [(str "parameters", none)] = Except.ok [] ∧
    extract_params [(str "parameters", some [])] = Except.ok [] := by
  have h := C10_parameters_key_handling defaultConfig supIdle
    ⟨str "application/json", []⟩ (str "cccccccccccc") (str "job") ⟨[], [], [], 0⟩
    rfl (by decide) rfl
  exact ⟨h.1, h.2.1 _ rfl, h.2.2 _ rfl⟩

/-! ## C8: id round-trip through the instance path -/

theorem lastIdxOf_eq_none {c : Char} {s : Str} (h : c ∉ s) : lastIdxOf c s = none := by
  induction s with
  | nil => rfl
  | cons x xs ih =>
    have hx : ¬ (x = c) := fun hxc => h (hxc ▸ List.mem_cons_self x xs)
    have hxs : c ∉ xs := fun hm => h (List.mem_cons_of_mem x hm)
    simp [lastIdxOf, ih hxs, hx]

theorem lastIdxOf_append_cons (c : Char) (A B : Str) (hB : c ∉ B) :
    lastIdxOf c (A ++ c :: B) = some A.length := by
  induction A with
  | nil => simp [lastIdxOf, lastIdxOf_eq_none hB]
  | cons a as ih => simp [lastIdxOf, ih]

theorem isPrefixOf_length_le {a b : Str} (h : a.isPrefixOf b = true) :
    a.length ≤ b.length := by
  induction a generalizing b with
  | nil => exact Nat.zero_le _
  | cons x xs ih =>
    cases b with
    | nil => simp [List.isPrefixOf] at h
    | cons y ys =>
      simp only [List.isPrefixOf, Bool.and_eq_true] at h
      simpa using ih h.2

theorem lastOccFrom_spec (s needle : Str) (lo qs : Nat)
    (hlo : lo ≤ qs) (hpre : needle.isPrefixOf (s.drop qs) = true) :
    ∀ fuel, qs < fuel →
      (∀ q, qs < q → q < fuel → needle.isPrefixOf (s.drop q) = false) →
      lastOccFrom s needle lo fuel = some qs := by
  intro fuel
  induction fuel with
  | zero => intro h; omega
  | succ f ih =>
    intro hq habove
    unfold lastOccFrom
    by_cases hf : f = qs
    · subst hf
      rw [if_pos ⟨hlo, hpre⟩]
    · have hgt : qs < f := by omega
      have hneg : ¬ (lo ≤ f ∧ needle.isPrefixOf (s.drop f) = true) := by
        intro hcon
        have hfalse := habove f hgt (Nat.lt_succ_self f)
        rw [hfalse] at hcon
        exact absurd hcon.2 (by simp)
      rw [if_neg hneg]
      exact ih hgt (fun q h1 h2 => habove q h1 (by omega))

/-- On any well-formed instance path `A ++ "_" ++ id ++ ".conf"` with
`id` a 12-character token free of underscores, the regex hand-compilation
recovers exactly `id`. -/
theorem extract_job_id_instance_path (A I : Str) (hA : A ≠ [])
    (hlen : I.length = 12) (hI : '_' ∉ I) :
    extract_job_id (A ++ '_' :: (I ++ str ".conf")) = some I := by
  have hB : '_' ∉ I ++ str ".conf" := by
    intro hm
    rcases List.mem_append.mp hm with h | h
    · exact hI h
    · revert h
      decide
  have h1 : lastIdxOf '_' (A ++ '_' :: (I ++ str ".conf")) = some A.length :=
    lastIdxOf_append_cons _ _ _ hB
  have hAlen : ¬ (A.length = 0) := fun h => hA (List.length_eq_zero.mp h)
  have hc5 : (str ".conf").length = 5 := rfl
  have hSlen : (A ++ '_' :: (I ++ str ".conf")).length = A.length + 18 := by
    simp [List.length_append, hlen, hc5]
  have hdrop1 : (A ++ '_' :: (I ++ str ".conf")).drop (A.length + 1) = I ++ str ".conf" := by
    rw [List.drop_append 1]
    rfl
  have hdrop14 : (A ++ '_' :: (I ++ str ".conf")).drop (A.length + 14) = str "conf" := by
    have e1 : A.length + 14 = (A.length + 1) + 13 := by omega
    rw [e1, ← List.drop_drop, hdrop1]
    have e2 : (13 : Nat) = I.length + 1 := by omega
    rw [e2, List.drop_append 1]
    rfl
  have h2 : lastOccFrom (A ++ '_' :: (I ++ str ".conf")) (str "conf") (A.length + 3)
      (A ++ '_' :: (I ++ str ".conf")).length = some (A.length + 14) := by
    rw [hSlen]
    apply lastOccFrom_spec
    · omega
    · rw [hdrop14]
      decide
    · omega
    · intro q hq1 hq2
      cases hb : (str "conf").isPrefixOf ((A ++ '_' :: (I ++ str ".conf")).drop q) with
      | false => rfl
      | true =>
        have hle := isPrefixOf_length_le hb
        rw [List.length_drop, hSlen] at hle
        have h4 : (str "conf").length = 4 := rfl
        omega
  unfold extract_job_id
  rw [h1]
  simp only [hAlen, if_false, h2]
  have harith : A.length + 14 - A.length - 2 = 12 := by omega
  rw [harith, hdrop1, ← hlen, List.take_left]

/-- Shared form of the round-trip: any `isHexId` id is recovered from its
instance file path. -/
theorem extract_job_id_filepath_eq (cfg : Config) (job_name job_id : Str)
    (hid : isHexId job_id = true) :
    extract_job_id (get_job_instance_filepath cfg job_name job_id) = some job_id := by
  have hid' := hid
  simp only [isHexId, Bool.and_eq_true, decide_eq_true_eq, List.all_eq_true] at hid'
  have hlen : job_id.length = 12 := hid'.1
  have hI : '_' ∉ job_id := by
    intro hm
    have := hid'.2 '_' hm
    exact absurd this (by decide)
  have hpath : get_job_instance_filepath cfg job_name job_id
      = (cfg.instancesDir ++ '/' :: job_name) ++ '_' :: (job_id ++ str ".conf") := by
    unfold get_job_instance_filepath get_job_instance_filename get_job_instance
    simp [List.append_assoc]
  have hA : cfg.instancesDir ++ '/' :: job_name ≠ [] := by
    intro h
    have := congrArg List.length h
    simp [List.length_append] at this
  rw [hpath]
  exact extract_job_id_instance_path _ _ hA hlen hI

/-- C8.  For every job name and every id of the shape produced by
`create_job_id` (12 lower-case hexadecimal characters), extracting the id
back out of the instance file path round-trips:
`extract_job_id (get_job_instance_filepath cfg name id) = some id`.  The
newline-freedom hypotheses delimit the domain on which the hand-compiled
`extract_job_id` agrees with `re.search`. -/
theorem C8_extract_job_id_roundtrip (cfg : Config) (job_name job_id : Str)
    (hid : isHexId job_id = true)
    (_hnl1 : '\n' ∉ cfg.instancesDir) (_hnl2 : '\n' ∉ job_name) :
    extract_job_id (get_job_instance_filepath cfg job_name job_id) = some job_id :=
  extract_job_id_filepath_eq cfg job_name job_id hid

/-- C8 witness: a concrete hex id round-trips through the default
instance directory. -/
theorem C8_witness :
    isHexId (str "a1b2c3d4e5f6") = true ∧
    extract_job_id (get_job_instance_filepath defaultConfig (str "job")
      (str "a1b2c3d4e5f6")) = some (str "a1b2c3d4e5f6") :=
  ⟨by decide,
   C8_extract_job_id_roundtrip defaultConfig (str "job") (str "a1b2c3d4e5f6")
     (by decide) (by decide) (by decide)⟩

/-! ## C4: rendering an instance from a template -/

theorem pyReplaceF_not_occurs (p : Char) (ps rep : Str) :
    ∀ (f : Nat) (s : Str), strContains (p :: ps) s = false →
      pyReplaceF p ps rep f s = s := by
  intro f
  induction f with
  | zero => intro s _; rfl
  | succ f ih =>
    intro s h
    cases s with
    | nil => rfl
    | cons c cs =>
      simp only [strContains, Bool.or_eq_false_iff] at h
      unfold pyReplaceF
      rw [h.1]
      simp only [Bool.false_eq_true, if_false]
      rw [ih cs h.2]

theorem pyReplace_not_occurs (p : Char) (ps rep s : Str)
    (h : strContains (p :: ps) s = false) : pyReplace p ps rep s = s :=
  pyReplaceF_not_occurs p ps rep s.length s h

theorem renderLine_not_occurs (params : List (Str × Str)) (line : Str)
    (h : ∀ kv ∈ params, strContains ('$' :: kv.1) line = false) :
    renderLine params line = line := by
  induction params with
  | nil => rfl
  | cons kv rest ih =>
    unfold renderLine
    rw [List.foldl_cons]
    rw [pyReplace_not_occurs _ _ _ _ (h kv (List.mem_cons_self kv rest))]
    exact ih (fun kv' hm => h kv' (List.mem_cons_of_mem kv hm))

/-- C4.  `create_jobconf` renders the instance as the template content,
line by line, under the sequential dollar-key replacement
substitution over the parameter map augmented with the reserved
`transcript_file` key: (a) the stored instance content is exactly that
rendering; (b) the `transcript_file` binding used is the injected
deterministic transcript path, overriding any caller-supplied value for
that key; (c) a line in which no `$key` token of the augmented map occurs
is passed through verbatim (no error). -/
theorem C4_render_substitution (cfg : Config) (job_id job_name : Str)
    (params : List (Str × Str)) (fs : FS) (tpl : FileEntry)
    (htpl : findFile (get_job_template_filename job_name) fs.templates = some tpl) :
    findFile (get_job_instance_filename job_name job_id)
        (create_jobconf cfg job_id job_name params fs).2.instances =
      some ⟨get_job_instance_filename job_name job_id,
        ((pyLinesKeepEnds tpl.content).map
          (renderLine (pySetItem (str "transcript_file")
            (get_job_instance_logpath cfg job_name job_id) params))).flatten,
        fs.clock⟩ ∧
    lookupKV (str "transcript_file")
        (pySetItem (str "transcript_file")
          (get_job_instance_logpath cfg job_name job_id) params) =
      some (get_job_instance_logpath cfg job_name job_id) ∧
    (∀ line,
      (∀ kv ∈ pySetItem (str "transcript_file")
          (get_job_instance_logpath cfg job_name job_id) params,
        strContains ('$' :: kv.1) line = false) →
      renderLine (pySetItem (str "transcript_file")
        (get_job_instance_logpath cfg job_name job_id) params) line = line) := by
  refine ⟨?_, lookupKV_pySetItem _ _ _, renderLine_not_occurs _⟩
  unfold create_jobconf
  rw [htpl]
  exact findFile_putFile _ _ _ _

def fsC4 : FS :=
  ⟨[⟨str "job.conf", str "cmd=run --x=$x\ntranscript=$transcript_file", 0⟩], [], [], 0⟩

/-- C4 witness: the spec scenario.  Template
`cmd=run --x=$x(nl)transcript=$transcript_file` with caller parameter
`x = 5` renders to `cmd=run --x=5(nl)transcript=/tmp/job_aaaaaaaaaaaa.log`. -/
theorem C4_witness :
    findFile (get_job_instance_filename (str "job") (str "aaaaaaaaaaaa"))
        (create_jobconf defaultConfig (str "aaaaaaaaaaaa") (str "job")
          [(str "x", str "5")] fsC4).2.instances =
      some ⟨get_job_instance_filename (str "job") (str "aaaaaaaaaaaa"),
        str "cmd=run --x=5\ntranscript=/tmp/job_aaaaaaaaaaaa.log", 0⟩ := by
  have h := C4_render_substitution defaultConfig (str "aaaaaaaaaaaa") (str "job")
    [(str "x", str "5")] fsC4
    ⟨str "job.conf", str "cmd=run --x=$x\ntranscript=$transcript_file", 0⟩ rfl
  rw [h.1]
  decide

/-! ## C1: starting a job whose latest instance is active -/

/-- C1.  A JSON start request on a job whose latest instance the
supervisor reports as active creates no new instance file (the file
system is unchanged), issues no supervisor start command (only the status
query), and answers 303 with body status `RUNNING` and a `Link` header
carrying the id of the existing latest instance. -/
theorem C1_start_rejected_while_running (cfg : Config) (sup : SupExec) (req : Request)
    (new_id job_name job_id : Str) (fs : FS)
    (hct : req.contentType = str "application/json")
    (hlat : get_latest_job_instance cfg job_name fs
      = some (get_job_instance_filepath cfg job_name job_id))
    (hid : isHexId job_id = true)
    (hact : (get_job_status sup (get_job_instance_filepath cfg job_name job_id)).active
      = true) :
    start_job_instance cfg sup req new_id job_name fs =
      ⟨Except.ok { status := 303, jstatus := some (str "RUNNING"),
                   link := some (urlJobById job_name job_id) },
       fs, [statusCmd (get_job_instance_filepath cfg job_name job_id)]⟩ := by
  have hctn : ¬ (req.contentType ≠ str "application/json") := by
    rw [hct]
    exact fun h => h rfl
  have hcr : check_running cfg sup job_name fs =
      (true,
       (get_job_status sup (get_job_instance_filepath cfg job_name job_id)).pid,
       [statusCmd (get_job_instance_filepath cfg job_name job_id)]) := by
    unfold check_running
    rw [hlat, ← hact]
  have hex : extract_job_id (get_job_instance_filepath cfg job_name job_id)
      = some job_id := extract_job_id_filepath_eq cfg job_name job_id hid
  unfold start_job_instance
  rw [if_neg hctn, hcr, hlat]
  simp only [if_true, hex]

/-- C1 witness: with one stored instance reported running by the
supervisor, the start request is rejected with 303 RUNNING, the state is
untouched and only the status command was issued. -/
theorem C1_witness :
    start_job_instance defaultConfig supC5
        ⟨str "application/json", [(str "parameters", none)]⟩
        (str "dddddddddddd") (str "job") fsC7 =
      ⟨Except.ok { status := 303, jstatus := some (str "RUNNING"),
                   link := some (urlJobById (str "job") (str "aaaaaaaaaaaa")) },
       fsC7,
       [statusCmd (get_job_instance_filepath defaultConfig (str "job")
         (str "aaaaaaaaaaaa"))]⟩ :=
  C1_start_rejected_while_running defaultConfig supC5
    ⟨str "application/json", [(str "parameters", none)]⟩
    (str "dddddddddddd") (str "job") (str "aaaaaaaaaaaa") fsC7
    rfl (by decide) (by decide) (by decide)
